import Mathlib

/-!
Shallow embedding of the ResQLink backend HTTP façade (Go packages `user`
and `disaster`) and proofs about its request-handling / error-translation
contract.

Modelling conventions:
* A Go `error` value is the inductive `GoError`.  Sentinel errors
  (`pgx.ErrNoRows`, `errInvalidPassword`) are constructors; `fmt.Errorf`
  with `%w` is the `wrap` constructor; a `*pgconn.PgError` is `pgError`.
* `errors.Is` walks the wrap chain (`goErrorIs`); the type assertion
  `err.(*pgconn.PgError)` only looks at the top of the value (`asPgError`).
* Each handler becomes a pure function from its decoded input (an
  `Except GoError body`, standing for the JSON decode / multipart parse
  result) and its collaborators (repository / uploader, passed as
  functions) to the `api.Response` envelope it returns, paired with the
  trace of repository (and uploader) invocations it performed, in order.
* External collaborator result types (session payloads, assignment rows)
  are type parameters: the handlers only move them.
-/

/-- Model of a Go `error` value as the handlers can observe it. -/
inductive GoError where
  /-- a `*pgconn.PgError` with its SQLSTATE code -/
  | pgError (code : String) (msg : String)
  /-- the sentinel `pgx.ErrNoRows` -/
  | errNoRows
  /-- the package-level sentinel `errInvalidPassword` -/
  | errInvalidPassword
  /-- `fmt.Errorf("label: %w", inner)` -/
  | wrap (label : String) (inner : GoError)
  /-- any other error -/
  | other (msg : String)
deriving DecidableEq

/-- `errors.Is err target`: the target itself or anything in its wrap chain. -/
def goErrorIs : GoError → GoError → Bool
  | .wrap label inner, target => (GoError.wrap label inner == target) || goErrorIs inner target
  | e, target => e == target

/-- The type assertion `err.(*pgconn.PgError)`: succeeds only when the value
itself is a `*pgconn.PgError`, never unwrapping. -/
def asPgError : GoError → Option (String × String)
  | .pgError code msg => some (code, msg)
  | _ => none

/-- The `SignUp` conflict test exactly as the handler performs it: the type
assertion succeeds and the SQLSTATE code is the uniqueness-violation code. -/
def isUniqueViolation (e : GoError) : Bool :=
  match asPgError e with
  | some (code, _) => code == "23505"
  | none => false

/-- `api.Response`: the uniform envelope every handler returns.  `Data` is
the optional payload, `Error` the wrapped diagnostic error (logged, never
serialized). -/
structure Response (α : Type) where
  Code : Nat
  Message : String
  Data : Option α := none
  Error : Option GoError := none
deriving DecidableEq

/-! ## user package -/

namespace user

/-- `role` is a string-backed type in the source. -/
abbrev role := String

/-- `time.Time`, abstracted to its instant. -/
abbrev GoTime := Int

/-- request body for `SignUp` -/
structure signUpRequest where
  Email : String
  Password : String
  FirstName : String
  MiddleName : Option String
  LastName : String
  BirthDate : GoTime
  Role : role
  StatusUpdateFrequency : Nat
  IsLocationShared : Bool
deriving DecidableEq

/-- `SignUp` handler: `decoded` is the JSON decode result of the body,
`repoSignUp` the repository collaborator.  Returns the envelope together
with the list of repository invocations (in order). -/
def SignUp (decoded : Except GoError signUpRequest)
    (repoSignUp : signUpRequest → Except GoError Unit) :
    Response Unit × List signUpRequest :=
  match decoded with
  | .error e =>
      ({ Code := 400, Message := "Invalid sign up request.",
         Error := some (.wrap "sign up" e) }, [])
  | .ok data =>
      match repoSignUp data with
      | .error err =>
          match asPgError err with
          | some (code, _) =>
              if code = "23505" then
                ({ Code := 409,
                   Message := "User " ++ data.Email ++ " already exists.",
                   Error := some (.wrap "sign up" err) }, [data])
              else
                ({ Code := 500, Message := "Failed to sign up.",
                   Error := some (.wrap "sign up" err) }, [data])
          | none =>
              ({ Code := 500, Message := "Failed to sign up.",
                 Error := some (.wrap "sign up" err) }, [data])
      | .ok _ =>
          ({ Code := 201, Message := "Successfully signed up." }, [data])

/-- embedded `BasicInfo` -/
structure BasicInfo where
  UserID : String
  FirstName : String
  MiddleName : Option String
  LastName : String
deriving DecidableEq

/-- `userResponse` -/
structure userResponse where
  basic : BasicInfo
  CreatedAt : GoTime
  UpdatedAt : GoTime
  Email : String
  BirthDate : GoTime
  Role : role
  StatusUpdateFrequency : Nat
  IsLocationShared : Bool
deriving DecidableEq

/-- request body for `SignIn` -/
structure signInRequest where
  Email : String
  Password : String
deriving DecidableEq

/-- `signInResponse`: the `{user, token}` payload -/
structure signInResponse where
  User : userResponse
  Token : String
deriving DecidableEq

/-- `SignIn` handler. -/
def SignIn (decoded : Except GoError signInRequest)
    (repoSignIn : signInRequest → Except GoError signInResponse) :
    Response signInResponse × List signInRequest :=
  match decoded with
  | .error e =>
      ({ Code := 400, Message := "Invalid sign in request.",
         Error := some (.wrap "sign in" e) }, [])
  | .ok data =>
      match repoSignIn data with
      | .error err =>
          if goErrorIs err .errNoRows then
            ({ Code := 404, Message := "Invalid credentials.",
               Error := some (.wrap "sign in" err) }, [data])
          else if goErrorIs err .errInvalidPassword then
            ({ Code := 401, Message := "Invalid password.",
               Error := some (.wrap "sign in" err) }, [data])
          else
            ({ Code := 500, Message := "Failed to sign in.",
               Error := some (.wrap "sign in" err) }, [data])
      | .ok response =>
          ({ Code := 200, Message := "Successfully signed in.",
             Data := some response }, [data])

/-- request body for `SignInAnonymous`; the struct definition lives outside
the given sources, but the handler reads exactly the `AnonymousID` field. -/
structure signInAnonymousRequest where
  AnonymousID : String
deriving DecidableEq

/-- `SignInAnonymous` handler, generic over the repository payload type. -/
def SignInAnonymous {σ : Type} (decoded : Except GoError signInAnonymousRequest)
    (repoAnon : String → Except GoError σ) :
    Response σ × List String :=
  match decoded with
  | .error e =>
      ({ Code := 400, Message := "Invalid anonymous sign in request.",
         Error := some (.wrap "sign in anon" e) }, [])
  | .ok data =>
      match repoAnon data.AnonymousID with
      | .error err =>
          ({ Code := 500, Message := "Failed to sign in as anonymous.",
             Error := some (.wrap "sign in anon" err) }, [data.AnonymousID])
      | .ok response =>
          ({ Code := 200, Message := "Successfully signed in as anonymous.",
             Data := some response }, [data.AnonymousID])

/-- request body for `SignOut` -/
structure signOutRequest where
  UserID : String
  Token : String
deriving DecidableEq

/-- `SignOut` handler; repository trace records `(token, userID)` pairs
passed to `invalidateSession`. -/
def SignOut (decoded : Except GoError signOutRequest)
    (invalidateSession : String → String → Except GoError Unit) :
    Response Unit × List (String × String) :=
  match decoded with
  | .error e =>
      ({ Code := 400, Message := "Invalid sign out request.",
         Error := some (.wrap "sign out" e) }, [])
  | .ok data =>
      match invalidateSession data.Token data.UserID with
      | .error err =>
          ({ Code := 500, Message := "Failed to sign out.",
             Error := some (.wrap "sign out" err) }, [(data.Token, data.UserID)])
      | .ok _ =>
          ({ Code := 200, Message := "Successfully signed out." },
           [(data.Token, data.UserID)])

/-- `GetSession` handler: validates the `token` query parameter. -/
def GetSession {σ : Type} (token : String)
    (validateSessionToken : String → Except GoError σ) :
    Response σ × List String :=
  match validateSessionToken token with
  | .error err =>
      ({ Code := 500, Message := "Failed to get user session.",
         Error := some (.wrap "get session" err) }, [token])
  | .ok result =>
      ({ Code := 200, Message := "Successfully fetched user session.",
         Data := some result }, [token])

/-- An incoming request as `AuthMiddleware` sees it: the `session` cookie
value when the cookie is present, and the rest of the request, opaque. -/
structure Request where
  sessionCookie : Option String
  payload : String
deriving DecidableEq

/-- What the middleware wrote: either the short-circuit status, or the
downstream handler's own output. -/
inductive MiddlewareOutcome (ω : Type) where
  | shortCircuit (status : Nat)
  | downstream (out : ω)
deriving DecidableEq

/-- `AuthMiddleware`: returns the outcome and the trace of requests passed
to the wrapped handler `next`. -/
def AuthMiddleware {σ ω : Type} (validateSessionToken : String → Except GoError σ)
    (next : Request → ω) (r : Request) : MiddlewareOutcome ω × List Request :=
  match r.sessionCookie with
  | none => (.shortCircuit 401, [])
  | some token =>
      match validateSessionToken token with
      | .error _ => (.shortCircuit 401, [])
      | .ok _ => (.downstream (next r), [r])

end user

/-! ## disaster package -/

namespace disaster

/-- `citizenStatus` is a string-backed type in the source. -/
abbrev citizenStatus := String

/-- A multipart file part (`*multipart.FileHeader`), opaque to the handler:
it is only handed to the uploader. -/
abbrev FileHeader := String

/-- `createReportRequest` -/
structure createReportRequest where
  UserID : Option String
  Name : String
  Status : citizenStatus
  RawSituation : String
  PhotoURLs : List String
deriving DecidableEq

/-- The parsed multipart form as `CreateDisasterReport` reads it:
`r.FormValue` results for the fields it touches, and the file headers under
the form field `photos`. -/
structure MultipartForm where
  userId : String
  name : String
  status : String
  rawSituation : String
  photos : List FileHeader
deriving DecidableEq

/-- The sequential upload loop over the `photos` file headers: invoke
`upload` on each header in order; stop at the first failure.  Returns the
trace of headers on which the uploader was invoked, and either the error of
the first failing upload or the collected URLs in order. -/
def uploadPhotos (upload : FileHeader → Except GoError String) :
    List FileHeader → List FileHeader × Except GoError (List String)
  | [] => ([], .ok [])
  | f :: fs =>
      match upload f with
      | .error e => ([f], .error e)
      | .ok url =>
          let rest := uploadPhotos upload fs
          (f :: rest.1, rest.2.map (url :: ·))

/-- `CreateDisasterReport` (multipart variant): `parsed` is the result of
`ParseMultipartForm` (a failure covers both a malformed body and the 10 MiB
bound), `uploadPhoto` the photo-storage collaborator, `repoCreate` the
repository.  Returns the envelope, the uploader invocation trace and the
repository invocation trace. -/
def CreateDisasterReport (parsed : Except GoError MultipartForm)
    (uploadPhoto : FileHeader → String → Except GoError String) (baseURL : String)
    (repoCreate : createReportRequest → Except GoError Unit) :
    Response Unit × List FileHeader × List createReportRequest :=
  match parsed with
  | .error e =>
      ({ Code := 400, Message := "Failed to parse disaster report form data.",
         Error := some (.wrap "create disaster report" e) }, [], [])
  | .ok form =>
      let userID : Option String := if form.userId ≠ "" then some form.userId else none
      let disasterReport : createReportRequest :=
        { UserID := userID, Name := form.name, Status := form.status,
          RawSituation := form.rawSituation, PhotoURLs := [] }
      match uploadPhotos (fun f => uploadPhoto f baseURL) form.photos with
      | (trace, .error e) =>
          ({ Code := 500, Message := "Failed to upload photo.",
             Error := some (.wrap "create disaster report" e) }, trace, [])
      | (trace, .ok urls) =>
          let report := { disasterReport with PhotoURLs := disasterReport.PhotoURLs ++ urls }
          match repoCreate report with
          | .error e =>
              ({ Code := 500, Message := "Failed to create disaster report.",
                 Error := some (.wrap "create disaster report" e) }, trace, [report])
          | .ok _ =>
              ({ Code := 201, Message := "Successfully created disaster report." },
               trace, [report])

/-- `CreateDisasterReportJson`: the `application/json` variant, no uploads. -/
def CreateDisasterReportJson (decoded : Except GoError createReportRequest)
    (repoCreate : createReportRequest → Except GoError Unit) :
    Response Unit × List createReportRequest :=
  match decoded with
  | .error e =>
      ({ Code := 400, Message := "Failed to create disaster report.",
         Error := some (.wrap "create disaster report" e) }, [])
  | .ok data =>
      match repoCreate data with
      | .error err =>
          ({ Code := 500, Message := "Failed to create disaster report.",
             Error := some (.wrap "create disaster report" err) }, [data])
      | .ok _ =>
          ({ Code := 201, Message := "Successfully created disaster report." }, [data])

/-- request body for `SetResponder`.  The struct definition lives outside
the given sources; the handler reads the `ReporterID` field, and the spec
says the body also carries the assignment fields, kept opaque here. -/
structure setResponderRequest where
  ReporterID : String
  assignmentFields : String
deriving DecidableEq

/-- `SetResponder` handler, generic over the repository's row type. -/
def SetResponder {σ : Type} (decoded : Except GoError setResponderRequest)
    (pathReporterID : String)
    (repoSetResponder : setResponderRequest → Except GoError σ) :
    Response σ × List setResponderRequest :=
  match decoded with
  | .error e =>
      ({ Code := 400, Message := "Invalid set responder request.",
         Error := some (.wrap "set responder" e) }, [])
  | .ok data =>
      if data.ReporterID ≠ pathReporterID then
        ({ Code := 400, Message := "Reporter ID in path and body doesn't match.",
           Error := some (.wrap "set responder" (.other "reporter ID mismatch")) }, [])
      else
        match repoSetResponder data with
        | .error err =>
            ({ Code := 400, Message := "Failed to set responder.",
               Error := some (.wrap "set responder" err) }, [data])
        | .ok resp =>
            ({ Code := 200, Message := "Successfully set responder.",
               Data := some resp }, [data])

/-- `ListDisasterReportsByReporter` handler. -/
def ListDisasterReportsByReporter {σ : Type} (reporterID : String)
    (repoList : String → Except GoError (List σ)) :
    Response (List σ) × List String :=
  match repoList reporterID with
  | .error err =>
      ({ Code := 500, Message := "Failed to get disaster reports.",
         Error := some (.wrap "get disaster reports by user" err) }, [reporterID])
  | .ok reports =>
      ({ Code := 200, Message := "Successfully fetched disaster reports.",
         Data := some reports }, [reporterID])

end disaster

/-! ## Helper lemmas -/

/-- The two sign-in sentinels can never both be found in one wrap chain:
a chain has a single non-wrap end, and a `wrap` node equals neither
sentinel. -/
theorem goErrorIs_sentinels_exclusive (e : GoError) :
    ¬(goErrorIs e .errNoRows = true ∧ goErrorIs e .errInvalidPassword = true) := by
  induction e with
  | wrap label inner ih =>
      intro h
      exact ih ⟨by simpa [goErrorIs] using h.1, by simpa [goErrorIs] using h.2⟩
  | pgError code msg => simp [goErrorIs]
  | errNoRows => simp [goErrorIs]
  | errInvalidPassword => simp [goErrorIs]
  | other msg => simp [goErrorIs]

theorem uploadPhotos_all_ok (upload : disaster.FileHeader → Except GoError String)
    (g : disaster.FileHeader → String) (fs : List disaster.FileHeader)
    (h : ∀ f ∈ fs, upload f = .ok (g f)) :
    disaster.uploadPhotos upload fs = (fs, .ok (fs.map g)) := by
  induction fs with
  | nil => rfl
  | cons f fs ih =>
      have hf : upload f = .ok (g f) := h f (List.mem_cons_self f fs)
      have hrest : disaster.uploadPhotos upload fs = (fs, .ok (fs.map g)) :=
        ih fun x hx => h x (List.mem_cons_of_mem f hx)
      simp [disaster.uploadPhotos, hf, hrest, Except.map]

theorem uploadPhotos_first_failure (upload : disaster.FileHeader → Except GoError String)
    (pre rest : List disaster.FileHeader) (bad : disaster.FileHeader) (e : GoError)
    (hpre : ∀ f ∈ pre, ∃ url, upload f = .ok url)
    (hbad : upload bad = .error e) :
    disaster.uploadPhotos upload (pre ++ bad :: rest) = (pre ++ [bad], .error e) := by
  induction pre with
  | nil => simp [disaster.uploadPhotos, hbad]
  | cons f fs ih =>
      obtain ⟨url, hurl⟩ := hpre f (List.mem_cons_self f fs)
      have hrest := ih fun x hx => hpre x (List.mem_cons_of_mem f hx)
      simp [disaster.uploadPhotos, hurl, hrest, Except.map]

/-! ## Claim theorems -/

/-- C1: in the multipart `CreateDisasterReport` handler, if the upload of
any single file under `photos` fails, the handler returns code 500, the
repository's `CreateDisasterReport` is never invoked (empty repository
trace), and the uploader has been invoked exactly on the files up to and
including the first failing one — in particular once for each file
preceding it. -/
theorem create_report_upload_failure_aborts
    (form : disaster.MultipartForm)
    (uploadPhoto : disaster.FileHeader → String → Except GoError String)
    (baseURL : String)
    (repoCreate : disaster.createReportRequest → Except GoError Unit)
    (pre rest : List disaster.FileHeader) (bad : disaster.FileHeader) (e : GoError)
    (hphotos : form.photos = pre ++ bad :: rest)
    (hpre : ∀ f ∈ pre, ∃ url, uploadPhoto f baseURL = .ok url)
    (hbad : uploadPhoto bad baseURL = .error e) :
    (disaster.CreateDisasterReport (.ok form) uploadPhoto baseURL repoCreate).1.Code = 500 ∧
    (disaster.CreateDisasterReport (.ok form) uploadPhoto baseURL repoCreate).2.2 = [] ∧
    (disaster.CreateDisasterReport (.ok form) uploadPhoto baseURL repoCreate).2.1 = pre ++ [bad] := by
  have hup := uploadPhotos_first_failure (fun f => uploadPhoto f baseURL) pre rest bad e hpre hbad
  simp [disaster.CreateDisasterReport, hphotos, hup]

/-- C1 witness: two files where the second upload fails — the whole request
is 500, no report is created, and the uploader ran on both files in order. -/
theorem create_report_upload_failure_aborts_witness :
    (disaster.CreateDisasterReport
        (.ok ⟨"", "quake", "danger", "help", ["a", "b"]⟩)
        (fun f _ => if f = "a" then .ok "url-a" else .error (.other "boom"))
        "base" (fun _ => .ok ())).1.Code = 500 ∧
    (disaster.CreateDisasterReport
        (.ok ⟨"", "quake", "danger", "help", ["a", "b"]⟩)
        (fun f _ => if f = "a" then .ok "url-a" else .error (.other "boom"))
        "base" (fun _ => .ok ())).2.2 = [] ∧
    (disaster.CreateDisasterReport
        (.ok ⟨"", "quake", "danger", "help", ["a", "b"]⟩)
        (fun f _ => if f = "a" then .ok "url-a" else .error (.other "boom"))
        "base" (fun _ => .ok ())).2.1 = ["a"] ++ ["b"] :=
  create_report_upload_failure_aborts
    ⟨"", "quake", "danger", "help", ["a", "b"]⟩
    (fun f _ => if f = "a" then .ok "url-a" else .error (.other "boom"))
    "base" (fun _ => .ok ()) ["a"] [] "b" (.other "boom") rfl
    (by
      intro f hf
      have hfa : f = "a" := by simpa using hf
      exact ⟨"url-a", by simp [hfa]⟩)
    (by simp)

/-- C8: on a successful multipart `CreateDisasterReport` request, the
uploader is invoked exactly on the `photos` files in their declared order,
and the report handed to the repository carries exactly the
uploader-returned URLs in that same order. -/
theorem create_report_photos_in_order
    (form : disaster.MultipartForm)
    (uploadPhoto : disaster.FileHeader → String → Except GoError String)
    (baseURL : String)
    (repoCreate : disaster.createReportRequest → Except GoError Unit)
    (g : disaster.FileHeader → String)
    (hok : ∀ f ∈ form.photos, uploadPhoto f baseURL = .ok (g f))
    (hrepo : ∀ req, repoCreate req = .ok ()) :
    (disaster.CreateDisasterReport (.ok form) uploadPhoto baseURL repoCreate).1.Code = 201 ∧
    (disaster.CreateDisasterReport (.ok form) uploadPhoto baseURL repoCreate).2.1 = form.photos ∧
    (disaster.CreateDisasterReport (.ok form) uploadPhoto baseURL repoCreate).2.2 =
      [{ UserID := if form.userId ≠ "" then some form.userId else none,
         Name := form.name, Status := form.status,
         RawSituation := form.rawSituation,
         PhotoURLs := form.photos.map g }] := by
  have hup := uploadPhotos_all_ok (fun f => uploadPhoto f baseURL) g form.photos hok
  simp [disaster.CreateDisasterReport, hup, hrepo]

/-- C8 witness: two photos, both uploads succeed — the report is persisted
with the two returned URLs in upload order. -/
theorem create_report_photos_in_order_witness :
    (disaster.CreateDisasterReport
        (.ok ⟨"u1", "fire", "trapped", "smoke", ["p1", "p2"]⟩)
        (fun f _ => .ok ("url-" ++ f)) "base" (fun _ => .ok ())).1.Code = 201 ∧
    (disaster.CreateDisasterReport
        (.ok ⟨"u1", "fire", "trapped", "smoke", ["p1", "p2"]⟩)
        (fun f _ => .ok ("url-" ++ f)) "base" (fun _ => .ok ())).2.1 = ["p1", "p2"] ∧
    (disaster.CreateDisasterReport
        (.ok ⟨"u1", "fire", "trapped", "smoke", ["p1", "p2"]⟩)
        (fun f _ => .ok ("url-" ++ f)) "base"
        (fun _ => .ok ())).2.2 = [⟨some "u1", "fire", "trapped", "smoke",
                                   ["url-p1", "url-p2"]⟩] := by
  have h := create_report_photos_in_order
    ⟨"u1", "fire", "trapped", "smoke", ["p1", "p2"]⟩
    (fun f _ => .ok ("url-" ++ f)) "base" (fun _ => .ok ())
    (fun f => "url-" ++ f) (fun _ _ => rfl) (fun _ => rfl)
  simpa using h

/-- C9: in the multipart `CreateDisasterReport` handler, an empty `userId`
form value yields a report with an absent reporter (`UserID = none`), and a
non-empty `userId` yields a report whose `UserID` is exactly that string —
as seen on every report passed to the repository. -/
theorem create_report_userId_mapping
    (form : disaster.MultipartForm)
    (uploadPhoto : disaster.FileHeader → String → Except GoError String)
    (baseURL : String)
    (repoCreate : disaster.createReportRequest → Except GoError Unit)
    (g : disaster.FileHeader → String)
    (hok : ∀ f ∈ form.photos, uploadPhoto f baseURL = .ok (g f)) :
    (form.userId = "" →
      ((disaster.CreateDisasterReport (.ok form) uploadPhoto baseURL repoCreate).2.2).map
        disaster.createReportRequest.UserID = [none]) ∧
    (form.userId ≠ "" →
      ((disaster.CreateDisasterReport (.ok form) uploadPhoto baseURL repoCreate).2.2).map
        disaster.createReportRequest.UserID = [some form.userId]) := by
  have hup := uploadPhotos_all_ok (fun f => uploadPhoto f baseURL) g form.photos hok
  constructor
  · intro h0
    simp only [disaster.CreateDisasterReport, hup, h0]
    split <;> simp
  · intro h0
    simp only [disaster.CreateDisasterReport, hup]
    split <;> simp [h0]

/-- C9 witness: an empty `userId` produces `UserID = none`, and
`userId = "u9"` produces `UserID = some "u9"`, on the persisted report. -/
theorem create_report_userId_mapping_witness :
    ((disaster.CreateDisasterReport (.ok ⟨"", "n", "s", "r", []⟩)
        (fun _ _ => .ok "u") "base" (fun _ => .ok ())).2.2).map
      disaster.createReportRequest.UserID = [none] ∧
    ((disaster.CreateDisasterReport (.ok ⟨"u9", "n", "s", "r", []⟩)
        (fun _ _ => .ok "u") "base" (fun _ => .ok ())).2.2).map
      disaster.createReportRequest.UserID = [some "u9"] :=
  ⟨(create_report_userId_mapping ⟨"", "n", "s", "r", []⟩ (fun _ _ => .ok "u") "base"
      (fun _ => .ok ()) (fun _ => "u") (by simp)).1 rfl,
   (create_report_userId_mapping ⟨"u9", "n", "s", "r", []⟩ (fun _ _ => .ok "u") "base"
      (fun _ => .ok ()) (fun _ => "u") (by simp)).2 (by simp)⟩

/-- C2: for a `SignIn` request whose body decodes, a repository error that
`errors.Is` `pgx.ErrNoRows` yields 404 with message "Invalid credentials.",
an error that `errors.Is` `errInvalidPassword` yields 401, any other error
yields 500, and success yields 200 carrying the repository's
`{user, token}` payload as data. -/
theorem sign_in_error_mapping
    (data : user.signInRequest)
    (repoSignIn : user.signInRequest → Except GoError user.signInResponse) :
    (∀ e, repoSignIn data = .error e → goErrorIs e .errNoRows = true →
      (user.SignIn (.ok data) repoSignIn).1.Code = 404 ∧
      (user.SignIn (.ok data) repoSignIn).1.Message = "Invalid credentials.") ∧
    (∀ e, repoSignIn data = .error e → goErrorIs e .errInvalidPassword = true →
      (user.SignIn (.ok data) repoSignIn).1.Code = 401) ∧
    (∀ e, repoSignIn data = .error e → goErrorIs e .errNoRows = false →
      goErrorIs e .errInvalidPassword = false →
      (user.SignIn (.ok data) repoSignIn).1.Code = 500) ∧
    (∀ resp, repoSignIn data = .ok resp →
      (user.SignIn (.ok data) repoSignIn).1.Code = 200 ∧
      (user.SignIn (.ok data) repoSignIn).1.Data = some resp) := by
  refine ⟨?_, ?_, ?_, ?_⟩
  · intro e he hno
    simp [user.SignIn, he, hno]
  · intro e he hpw
    have hno : goErrorIs e .errNoRows = false := by
      cases hb : goErrorIs e .errNoRows
      · rfl
      · exact absurd ⟨hb, hpw⟩ (goErrorIs_sentinels_exclusive e)
    simp [user.SignIn, he, hno, hpw]
  · intro e he hno hpw
    simp [user.SignIn, he, hno, hpw]
  · intro resp hresp
    simp [user.SignIn, hresp]

/-- C2 witness: the four branches at concrete inputs — a bare
`pgx.ErrNoRows` gives 404, a wrapped `errInvalidPassword` gives 401, an
unrelated error gives 500, and a successful repository result gives 200
with the payload. -/
theorem sign_in_error_mapping_witness :
    ((user.SignIn (.ok ⟨"e@x", "pw"⟩) (fun _ => .error .errNoRows)).1.Code = 404 ∧
     (user.SignIn (.ok ⟨"e@x", "pw"⟩) (fun _ => .error .errNoRows)).1.Message =
       "Invalid credentials.") ∧
    (user.SignIn (.ok ⟨"e@x", "pw"⟩)
      (fun _ => .error (.wrap "verify" .errInvalidPassword))).1.Code = 401 ∧
    (user.SignIn (.ok ⟨"e@x", "pw"⟩) (fun _ => .error (.other "db down"))).1.Code = 500 ∧
    ((user.SignIn (.ok ⟨"e@x", "pw"⟩)
        (fun _ => .ok ⟨⟨⟨"id1", "Ann", none, "Doe"⟩, 0, 0, "e@x", 0, "citizen", 0, false⟩,
                       "tok1"⟩)).1.Code = 200 ∧
     (user.SignIn (.ok ⟨"e@x", "pw"⟩)
        (fun _ => .ok ⟨⟨⟨"id1", "Ann", none, "Doe"⟩, 0, 0, "e@x", 0, "citizen", 0, false⟩,
                       "tok1"⟩)).1.Data =
       some ⟨⟨⟨"id1", "Ann", none, "Doe"⟩, 0, 0, "e@x", 0, "citizen", 0, false⟩, "tok1"⟩) :=
  ⟨(sign_in_error_mapping ⟨"e@x", "pw"⟩ (fun _ => .error .errNoRows)).1
      .errNoRows rfl (by decide),
   (sign_in_error_mapping ⟨"e@x", "pw"⟩
      (fun _ => .error (.wrap "verify" .errInvalidPassword))).2.1
      (.wrap "verify" .errInvalidPassword) rfl (by decide),
   (sign_in_error_mapping ⟨"e@x", "pw"⟩ (fun _ => .error (.other "db down"))).2.2.1
      (.other "db down") rfl (by decide) (by decide),
   (sign_in_error_mapping ⟨"e@x", "pw"⟩
      (fun _ => .ok ⟨⟨⟨"id1", "Ann", none, "Doe"⟩, 0, 0, "e@x", 0, "citizen", 0, false⟩,
                     "tok1"⟩)).2.2.2
      ⟨⟨⟨"id1", "Ann", none, "Doe"⟩, 0, 0, "e@x", 0, "citizen", 0, false⟩, "tok1"⟩ rfl⟩

/-- C3: for a `SignUp` request whose body decodes, a direct PostgreSQL
uniqueness-violation error (SQLSTATE 23505) yields 409 with a message
naming the conflicting email, any repository error that is not such a
violation yields 500, and success yields 201 with no data. -/
theorem sign_up_error_mapping
    (data : user.signUpRequest)
    (repoSignUp : user.signUpRequest → Except GoError Unit) :
    (∀ msg, repoSignUp data = .error (.pgError "23505" msg) →
      (user.SignUp (.ok data) repoSignUp).1.Code = 409 ∧
      (user.SignUp (.ok data) repoSignUp).1.Message =
        "User " ++ data.Email ++ " already exists.") ∧
    (∀ e, repoSignUp data = .error e → isUniqueViolation e = false →
      (user.SignUp (.ok data) repoSignUp).1.Code = 500) ∧
    (repoSignUp data = .ok () →
      (user.SignUp (.ok data) repoSignUp).1.Code = 201 ∧
      (user.SignUp (.ok data) repoSignUp).1.Data = none) := by
  refine ⟨?_, ?_, ?_⟩
  · intro msg he
    simp [user.SignUp, he, asPgError]
  · intro e he hu
    cases e <;> simp_all [user.SignUp, asPgError, isUniqueViolation]
  · intro hok
    simp [user.SignUp, hok]

/-- C3 witness: a direct 23505 error gives 409 naming the email, a plain
failure gives 500, and success gives 201 with no data. -/
theorem sign_up_error_mapping_witness :
    ((user.SignUp (.ok ⟨"a@b.c", "pw", "Ann", none, "Doe", 0, "citizen", 0, false⟩)
        (fun _ => .error (.pgError "23505" "dup"))).1.Code = 409 ∧
     (user.SignUp (.ok ⟨"a@b.c", "pw", "Ann", none, "Doe", 0, "citizen", 0, false⟩)
        (fun _ => .error (.pgError "23505" "dup"))).1.Message =
       "User " ++ "a@b.c" ++ " already exists.") ∧
    (user.SignUp (.ok ⟨"a@b.c", "pw", "Ann", none, "Doe", 0, "citizen", 0, false⟩)
        (fun _ => .error (.other "db down"))).1.Code = 500 ∧
    ((user.SignUp (.ok ⟨"a@b.c", "pw", "Ann", none, "Doe", 0, "citizen", 0, false⟩)
        (fun _ => .ok ())).1.Code = 201 ∧
     (user.SignUp (.ok ⟨"a@b.c", "pw", "Ann", none, "Doe", 0, "citizen", 0, false⟩)
        (fun _ => .ok ())).1.Data = none) :=
  ⟨(sign_up_error_mapping ⟨"a@b.c", "pw", "Ann", none, "Doe", 0, "citizen", 0, false⟩
      (fun _ => .error (.pgError "23505" "dup"))).1 "dup" rfl,
   (sign_up_error_mapping ⟨"a@b.c", "pw", "Ann", none, "Doe", 0, "citizen", 0, false⟩
      (fun _ => .error (.other "db down"))).2.1 (.other "db down") rfl (by decide),
   (sign_up_error_mapping ⟨"a@b.c", "pw", "Ann", none, "Doe", 0, "citizen", 0, false⟩
      (fun _ => .ok ())).2.2 rfl⟩

/-- C10: `SignUp` classifies an error as the 409 conflict case exactly when
the error value itself is a PostgreSQL error with code 23505 (a top-level
type assertion, no unwrapping); in particular a 23505 error wrapped inside
another error is mapped to 500. -/
theorem sign_up_conflict_needs_direct_pg_error
    (data : user.signUpRequest)
    (repoSignUp : user.signUpRequest → Except GoError Unit) :
    (∀ label msg, repoSignUp data = .error (.wrap label (.pgError "23505" msg)) →
      (user.SignUp (.ok data) repoSignUp).1.Code = 500) ∧
    (∀ e, repoSignUp data = .error e →
      ((user.SignUp (.ok data) repoSignUp).1.Code = 409 ↔ isUniqueViolation e = true)) := by
  constructor
  · intro label msg he
    simp [user.SignUp, he, asPgError]
  · intro e he
    cases e <;> simp [user.SignUp, he, asPgError, isUniqueViolation]
    case pgError code msg =>
      by_cases hc : code = "23505" <;> simp [hc]

/-- C10 witness: the same 23505 error direct gives 409, wrapped gives 500. -/
theorem sign_up_conflict_needs_direct_pg_error_witness :
    (user.SignUp (.ok ⟨"a@b.c", "pw", "Ann", none, "Doe", 0, "citizen", 0, false⟩)
      (fun _ => .error (.wrap "sign up tx" (.pgError "23505" "dup")))).1.Code = 500 ∧
    ((user.SignUp (.ok ⟨"a@b.c", "pw", "Ann", none, "Doe", 0, "citizen", 0, false⟩)
        (fun _ => .error (.pgError "23505" "dup"))).1.Code = 409 ↔
      isUniqueViolation (.pgError "23505" "dup") = true) :=
  ⟨(sign_up_conflict_needs_direct_pg_error
      ⟨"a@b.c", "pw", "Ann", none, "Doe", 0, "citizen", 0, false⟩
      (fun _ => .error (.wrap "sign up tx" (.pgError "23505" "dup")))).1
      "sign up tx" "dup" rfl,
   (sign_up_conflict_needs_direct_pg_error
      ⟨"a@b.c", "pw", "Ann", none, "Doe", 0, "citizen", 0, false⟩
      (fun _ => .error (.pgError "23505" "dup"))).2 (.pgError "23505" "dup") rfl⟩

/-- C4: in `SetResponder`, a body/path reporter-ID mismatch yields 400 with
no repository call; with matching IDs, any repository error yields 400 (not
500), and success yields 200 with the updated assignment as data. -/
theorem set_responder_mapping (σ : Type) (data : disaster.setResponderRequest)
    (pathReporterID : String)
    (repoSetResponder : disaster.setResponderRequest → Except GoError σ) :
    (data.ReporterID ≠ pathReporterID →
      (disaster.SetResponder (.ok data) pathReporterID repoSetResponder).1.Code = 400 ∧
      (disaster.SetResponder (.ok data) pathReporterID repoSetResponder).2 = []) ∧
    (∀ e, data.ReporterID = pathReporterID → repoSetResponder data = .error e →
      (disaster.SetResponder (.ok data) pathReporterID repoSetResponder).1.Code = 400) ∧
    (∀ resp, data.ReporterID = pathReporterID → repoSetResponder data = .ok resp →
      (disaster.SetResponder (.ok data) pathReporterID repoSetResponder).1.Code = 200 ∧
      (disaster.SetResponder (.ok data) pathReporterID repoSetResponder).1.Data = some resp) := by
  refine ⟨?_, ?_, ?_⟩
  · intro hne
    simp [disaster.SetResponder, hne]
  · intro e heq he
    simp [disaster.SetResponder, heq, he]
  · intro resp heq hok
    simp [disaster.SetResponder, heq, hok]

/-- C4 witness: path "R1" against body reporter "R2" is 400 with no
repository call; matching IDs with a failing repository is 400; matching
IDs with a successful repository is 200 with the assignment. -/
theorem set_responder_mapping_witness :
    ((disaster.SetResponder (σ := Nat) (.ok ⟨"R2", "af"⟩) "R1"
        (fun _ => .ok 5)).1.Code = 400 ∧
     (disaster.SetResponder (σ := Nat) (.ok ⟨"R2", "af"⟩) "R1"
        (fun _ => .ok 5)).2 = []) ∧
    (disaster.SetResponder (σ := Nat) (.ok ⟨"R1", "af"⟩) "R1"
        (fun _ => .error (.other "conflict"))).1.Code = 400 ∧
    ((disaster.SetResponder (σ := Nat) (.ok ⟨"R1", "af"⟩) "R1"
        (fun _ => .ok 5)).1.Code = 200 ∧
     (disaster.SetResponder (σ := Nat) (.ok ⟨"R1", "af"⟩) "R1"
        (fun _ => .ok 5)).1.Data = some 5) :=
  ⟨(set_responder_mapping Nat ⟨"R2", "af"⟩ "R1" (fun _ => .ok 5)).1 (by decide),
   (set_responder_mapping Nat ⟨"R1", "af"⟩ "R1" (fun _ => .error (.other "conflict"))).2.1
      (.other "conflict") rfl rfl,
   (set_responder_mapping Nat ⟨"R1", "af"⟩ "R1" (fun _ => .ok 5)).2.2 5 rfl rfl⟩

/-- C5: every body-decoding handler — `SignUp`, `SignIn`, `SignInAnonymous`,
`SignOut`, `CreateDisasterReportJson`, `SetResponder` — answers a decode
failure with code 400 and an empty repository-invocation trace. -/
theorem decode_failure_short_circuits (e : GoError) :
    (∀ repo, (user.SignUp (.error e) repo).1.Code = 400 ∧
       (user.SignUp (.error e) repo).2 = []) ∧
    (∀ repo, (user.SignIn (.error e) repo).1.Code = 400 ∧
       (user.SignIn (.error e) repo).2 = []) ∧
    (∀ (σ : Type) (repo : String → Except GoError σ),
       (user.SignInAnonymous (.error e) repo).1.Code = 400 ∧
       (user.SignInAnonymous (.error e) repo).2 = []) ∧
    (∀ inval, (user.SignOut (.error e) inval).1.Code = 400 ∧
       (user.SignOut (.error e) inval).2 = []) ∧
    (∀ repo, (disaster.CreateDisasterReportJson (.error e) repo).1.Code = 400 ∧
       (disaster.CreateDisasterReportJson (.error e) repo).2 = []) ∧
    (∀ (σ : Type) (pathReporterID : String)
       (repo : disaster.setResponderRequest → Except GoError σ),
       (disaster.SetResponder (.error e) pathReporterID repo).1.Code = 400 ∧
       (disaster.SetResponder (.error e) pathReporterID repo).2 = []) :=
  ⟨fun _ => ⟨rfl, rfl⟩, fun _ => ⟨rfl, rfl⟩, fun _ _ => ⟨rfl, rfl⟩,
   fun _ => ⟨rfl, rfl⟩, fun _ => ⟨rfl, rfl⟩, fun _ _ _ => ⟨rfl, rfl⟩⟩

/-- C6: `AuthMiddleware` short-circuits with 401 and never invokes the
wrapped handler when the `session` cookie is absent or token validation
fails; on successful validation it forwards the request unchanged to the
wrapped handler and returns that handler's output. -/
theorem auth_middleware_gate (σ ω : Type) (validateSessionToken : String → Except GoError σ)
    (next : user.Request → ω) (r : user.Request) :
    (r.sessionCookie = none →
      user.AuthMiddleware validateSessionToken next r = (.shortCircuit 401, [])) ∧
    (∀ tok e, r.sessionCookie = some tok → validateSessionToken tok = .error e →
      user.AuthMiddleware validateSessionToken next r = (.shortCircuit 401, [])) ∧
    (∀ tok s, r.sessionCookie = some tok → validateSessionToken tok = .ok s →
      user.AuthMiddleware validateSessionToken next r = (.downstream (next r), [r])) := by
  refine ⟨?_, ?_, ?_⟩
  · intro hc
    simp [user.AuthMiddleware, hc]
  · intro tok e hc hv
    simp [user.AuthMiddleware, hc, hv]
  · intro tok s hc hv
    simp [user.AuthMiddleware, hc, hv]

/-- C6 witness: no cookie gives 401 with no downstream call, a bad token
gives 401 with no downstream call, and a good token forwards the request to
the stub handler. -/
theorem auth_middleware_gate_witness :
    user.AuthMiddleware (fun t => if t = "good" then .ok () else .error (.other "bad"))
      (fun _ => (7 : Nat)) ⟨none, "p"⟩ = (.shortCircuit 401, []) ∧
    user.AuthMiddleware (fun t => if t = "good" then .ok () else .error (.other "bad"))
      (fun _ => (7 : Nat)) ⟨some "bad", "p"⟩ = (.shortCircuit 401, []) ∧
    user.AuthMiddleware (fun t => if t = "good" then .ok () else .error (.other "bad"))
      (fun _ => (7 : Nat)) ⟨some "good", "p"⟩ = (.downstream 7, [⟨some "good", "p"⟩]) :=
  ⟨(auth_middleware_gate Unit Nat
      (fun t => if t = "good" then .ok () else .error (.other "bad"))
      (fun _ => (7 : Nat)) ⟨none, "p"⟩).1 rfl,
   (auth_middleware_gate Unit Nat
      (fun t => if t = "good" then .ok () else .error (.other "bad"))
      (fun _ => (7 : Nat)) ⟨some "bad", "p"⟩).2.1 "bad" (.other "bad") rfl (by simp),
   (auth_middleware_gate Unit Nat
      (fun t => if t = "good" then .ok () else .error (.other "bad"))
      (fun _ => (7 : Nat)) ⟨some "good", "p"⟩).2.2 "good" () rfl (by simp)⟩

/-- C7: `GetSession` maps every token-validation failure — invalid token or
internal failure alike — to code 500 with the same message, and success to
code 200 with the validation result as data. -/
theorem get_session_error_conflation (σ : Type) (token : String)
    (validateSessionToken : String → Except GoError σ) :
    (∀ e, validateSessionToken token = .error e →
      (user.GetSession token validateSessionToken).1.Code = 500 ∧
      (user.GetSession token validateSessionToken).1.Message =
        "Failed to get user session.") ∧
    (∀ s, validateSessionToken token = .ok s →
      (user.GetSession token validateSessionToken).1.Code = 200 ∧
      (user.GetSession token validateSessionToken).1.Data = some s) := by
  constructor
  · intro e he
    simp [user.GetSession, he]
  · intro s hs
    simp [user.GetSession, hs]

/-- C7 witness: an invalid-token failure and an internal failure both give
500 with the same message; a valid token gives 200 with the result. -/
theorem get_session_error_conflation_witness :
    ((user.GetSession (σ := Nat) "t" (fun _ => .error (.other "invalid token"))).1.Code = 500 ∧
     (user.GetSession (σ := Nat) "t" (fun _ => .error (.other "invalid token"))).1.Message =
       "Failed to get user session.") ∧
    ((user.GetSession (σ := Nat) "t" (fun _ => .error (.other "db down"))).1.Code = 500 ∧
     (user.GetSession (σ := Nat) "t" (fun _ => .error (.other "db down"))).1.Message =
       "Failed to get user session.") ∧
    ((user.GetSession (σ := Nat) "t" (fun _ => .ok 3)).1.Code = 200 ∧
     (user.GetSession (σ := Nat) "t" (fun _ => .ok 3)).1.Data = some 3) :=
  ⟨(get_session_error_conflation Nat "t" (fun _ => .error (.other "invalid token"))).1
      (.other "invalid token") rfl,
   (get_session_error_conflation Nat "t" (fun _ => .error (.other "db down"))).1
      (.other "db down") rfl,
   (get_session_error_conflation Nat "t" (fun _ => .ok 3)).2 3 rfl⟩
